import Mathlib

/-!
Shallow embedding of the MCP Unity WebSocket bridge client
(`Server/src/unity/mcpUnity.ts`): the endpoint resolver (`determinePort`
and the per-platform probes) and the RPC bridge client (`connect`,
`handleMessage`, `disconnect`, `reconnect`, `stop`, `sendRequest`,
`isConnected`, the request-timeout callback).

Modelling conventions:
  * Machine integers are `Int`; a JavaScript `number` that may be `NaN`
    (the result of `parseInt`) is `Option Int`, with `none` for `NaN`.
  * The external environment read by the resolver (process env, platform,
    registry, `execSync` results) is a `ResolveEnv` record; an `execSync`
    call that may throw is an `Except String String` field.
  * The client is a state machine.  Promise resolution/rejection and
    timer creation/cancellation are recorded as `Effect`s emitted by each
    step; each `sendRequest` call's promise and its timer are identified
    by one freshly allocated `Nat` token, stored in the pending entry
    (the source stores the `resolve`/`reject` continuations and the
    `timeout` handle there).
  * The event-loop callbacks of the source (`ws.onopen`, `ws.onmessage`,
    `ws.onclose`, `ws.onerror`, the request-timeout callback) are
    separate step functions, in accordance with the single-threaded
    cooperative execution model: each runs to completion on the state.
-/

/- JSON values: the payload type for `params`, `result` and
`error.details` (typed `any` in the source). -/
mutual

/-- A JSON value. -/
inductive Json where
  | null
  | bool (b : Bool)
  | num (n : Int)
  | str (s : String)
  | arr (elems : JsonList)
  | obj (fields : JsonFields)
deriving DecidableEq

/-- A list of JSON values (array elements). -/
inductive JsonList where
  | nil
  | cons (hd : Json) (tl : JsonList)
deriving DecidableEq

/-- The fields of a JSON object. -/
inductive JsonFields where
  | nil
  | cons (key : String) (val : Json) (tl : JsonFields)
deriving DecidableEq

end

/-- Error categories of `McpUnityError` as used by `mcpUnity.ts`
(`ErrorType.CONNECTION`, `ErrorType.TIMEOUT`, `ErrorType.TOOL_EXECUTION`),
matching the spec taxonomy ConnectionError / TimeoutError /
ToolExecutionError. -/
inductive ErrorType where
  | connection
  | timeout
  | toolExecution
deriving DecidableEq

/-- `McpUnityError(type, message, details)` as constructed at the call
sites in `mcpUnity.ts`. -/
structure McpUnityError where
  type : ErrorType
  message : String
  details : Option Json
deriving DecidableEq

/-- `UnityRequest`: `id` is optional (`id?: string`). -/
structure UnityRequest where
  id : Option String
  method : String
  params : Json
deriving DecidableEq

/-- The anonymous `error` object shape inside `UnityResponse`. -/
structure UnityResponseError where
  message : String
  type : String
  details : Option Json
deriving DecidableEq

/-- `UnityResponse` wire shape.  `id : Option String` models both an
absent `id` field and a present one; the source guards on truthiness
(`response.id && ...`), under which `none` and `some ""` are both falsy. -/
structure UnityResponse where
  jsonrpc : String
  id : Option String
  result : Option Json
  error : Option UnityResponseError
deriving DecidableEq

/- ### Endpoint resolver -/

/-- Platforms distinguished by `getPlatformSpecificPort`'s switch on
`process.platform`: `win32`, `darwin`, and the `default` arm. -/
inductive Platform where
  | win32
  | darwin
  | otherUnix
deriving DecidableEq

instance {α β : Type} [DecidableEq α] [DecidableEq β] :
    DecidableEq (Except α β) := fun a b =>
  match a, b with
  | .error x, .error y =>
    if h : x = y then isTrue (congrArg _ h)
    else isFalse (by intro he; cases he; exact h rfl)
  | .ok x, .ok y =>
    if h : x = y then isTrue (congrArg _ h)
    else isFalse (by intro he; cases he; exact h rfl)
  | .error _, .ok _ => isFalse (by intro he; cases he)
  | .ok _, .error _ => isFalse (by intro he; cases he)

/-- The external environment the resolver reads.  `Except` fields model
`execSync` calls that may throw; string values are already trimmed, as
the source applies `.trim()` to every `execSync` output. -/
structure ResolveEnv where
  /-- `process.env.UNITY_PORT` (`none` = unset). -/
  unityPortEnv : Option String
  platform : Platform
  /-- The `UNITY_PORT` value stored under `HKCU\Environment`, if any.
  Present in the environment record even though the synchronous result of
  `getUnityPortFromWindowsRegistry` cannot depend on it (see there). -/
  winRegistryUnityPort : Option String
  /-- Result of `execSync('launchctl getenv UNITY_PORT')`. -/
  macLaunchd : Except String String
  /-- Result of the shell-profile fallback `execSync` on macOS. -/
  macShell : Except String String
  /-- Result of `execSync('printenv UNITY_PORT')`; `printenv` exits
  nonzero when the variable is unset, making `execSync` throw. -/
  unixPrintenv : Except String String
deriving DecidableEq

/-- ECMAScript `parseInt(s, 10)`: skip leading whitespace, optional
sign, longest digit prefix; `none` models `NaN` (no digits). -/
def jsParseInt (s : String) : Option Int :=
  let t := s.toList.dropWhile fun c => c = ' ' ∨ c = '\t' ∨ c = '\n' ∨ c = '\r'
  let signAndRest : Int × List Char :=
    match t with
    | '-' :: r => (-1, r)
    | '+' :: r => (1, r)
    | r => (1, r)
  let digits := signAndRest.2.takeWhile Char.isDigit
  if digits.isEmpty then none
  else some (signAndRest.1 *
    (digits.foldl (fun acc c => acc * 10 + (c.toNat - 48)) (0 : Nat) : Int))

/-- `getUnityPortFromWindowsRegistry`.  The source calls
`regKey.get('UNITY_PORT', callback)`; `winreg`'s `get` invokes its
callback asynchronously (it spawns `reg.exe` and parses its output), so
the assignment `result = item.value` inside the callback runs only after
the enclosing function has already returned `result`.  The synchronous
return value is therefore always the initial `''`, whatever
`winRegistryUnityPort` holds. -/
def getUnityPortFromWindowsRegistry (_env : ResolveEnv) : String := ""

/-- `getUnityPortFromMacOS`: launchd environment first; if it yields a
nonempty string return it, otherwise the shell-profile fallback; any
thrown error is caught and yields `''`. -/
def getUnityPortFromMacOS (env : ResolveEnv) : String :=
  match env.macLaunchd with
  | .error _ => ""
  | .ok launchdPort =>
    if launchdPort ≠ "" then launchdPort
    else
      match env.macShell with
      | .error _ => ""
      | .ok shellPort => shellPort

/-- `getUnityPortFromUnixRegistry`: `printenv UNITY_PORT`, trimmed; a
thrown `execSync` error propagates to the caller (no catch here). -/
def getUnityPortFromUnixRegistry (env : ResolveEnv) : Except String String :=
  env.unixPrintenv

/-- `getPlatformSpecificPort`: switch on `process.platform`.  The win32
and darwin probes never throw (the darwin one catches internally); the
POSIX probe may. -/
def getPlatformSpecificPort (env : ResolveEnv) : Except String String :=
  match env.platform with
  | .win32 => .ok (getUnityPortFromWindowsRegistry env)
  | .darwin => .ok (getUnityPortFromMacOS env)
  | .otherUnix => getUnityPortFromUnixRegistry env

/-- `DEFAULT_PORT` constant of `determinePort`. -/
def DEFAULT_PORT : Int := 8090

/-- The registry-then-default tail of `determinePort`: a thrown probe
error is caught (logged) and falls through to the default, a truthy
(nonempty) probe value is returned through `parseInt`, and a falsy one
falls through to the default. -/
def portFromRegistryOrDefault (env : ResolveEnv) : Option Int :=
  match getPlatformSpecificPort env with
  | .error _ => some DEFAULT_PORT
  | .ok registryPort =>
    if registryPort ≠ "" then jsParseInt registryPort
    else some DEFAULT_PORT

/-- `determinePort`: env variable if truthy (any nonempty string, parsed
with `parseInt` — there is no parseability guard), else platform store,
else `DEFAULT_PORT`.  A `none` result models the `NaN` the source
returns for a nonempty unparseable value. -/
def determinePort (env : ResolveEnv) : Option Int :=
  match env.unityPortEnv with
  | some envPort =>
    if envPort ≠ "" then jsParseInt envPort
    else portFromRegistryOrDefault env
  | none => portFromRegistryOrDefault env

/- ### RPC bridge client state -/

/-- `ws.readyState` values. -/
inductive WsReadyState where
  | CONNECTING
  | OPEN
  | CLOSING
  | CLOSED
deriving DecidableEq

/-- The owned WebSocket handle: its ready state and the token of the
connection-timeout timer created alongside it in `connect`. -/
structure WsHandle where
  readyState : WsReadyState
  connTimer : Nat
deriving DecidableEq

/-- One pending entry.  The source stores `resolve`, `reject` and the
`timeout` handle; all three belong to one `sendRequest` call and are
identified here by that call's token. -/
structure PendingRequest where
  token : Nat
deriving DecidableEq

/-- `REQUEST_TIMEOUT` constant (milliseconds). -/
def REQUEST_TIMEOUT : Nat := 10000

/-- Observable effects of one step: promise completions, timer
creation/cancellation (`setTimeout`/`clearTimeout`), the transport write,
transport close operations, and log lines. -/
inductive Effect where
  | resolveP (tok : Nat) (value : Option Json)
  | rejectP (tok : Nat) (err : McpUnityError)
  | setTimer (tok : Nat) (ms : Nat)
  | clearTimer (tok : Nat)
  | sendFrame (frame : UnityRequest)
  | closeWs
  | terminateWs
  | log (msg : String)
deriving DecidableEq

/-- The mutable fields of the `McpUnity` class relevant to the bridge
client, plus a token supply for timers/promises. -/
structure ClientState where
  ws : Option WsHandle
  pendingRequests : List (String × PendingRequest)
  nextToken : Nat
deriving DecidableEq

/- JavaScript `Map` operations on the association list (keys unique,
`set` overwrites in place, `delete` removes the entry). -/

def jsMapHas (m : List (String × PendingRequest)) (k : String) : Bool :=
  m.any fun p => p.1 == k

def jsMapGet (m : List (String × PendingRequest)) (k : String) :
    Option PendingRequest :=
  (m.find? fun p => p.1 == k).map fun p => p.2

def jsMapSet (m : List (String × PendingRequest)) (k : String)
    (v : PendingRequest) : List (String × PendingRequest) :=
  if jsMapHas m k then m.map fun p => if p.1 == k then (k, v) else p
  else m ++ [(k, v)]

def jsMapDelete (m : List (String × PendingRequest)) (k : String) :
    List (String × PendingRequest) :=
  m.filter fun p => !(p.1 == k)

/-- `isConnected` getter: a handle exists and its state is exactly OPEN. -/
def isConnected (s : ClientState) : Bool :=
  match s.ws with
  | some w => w.readyState = WsReadyState.OPEN
  | none => false

/-- The connection-closed rejection used when draining the table. -/
def connectionClosedError : McpUnityError :=
  ⟨ErrorType.connection, "Connection closed", none⟩

/-- `disconnect`: when a handle exists, unregister its callbacks,
terminate (mid-handshake) or close (open) it, null the reference, and
drain the table — cancelling every timer and rejecting every entry with
the connection-closed error.  When the handle is already null, nothing
happens. -/
def disconnect (s : ClientState) : ClientState × List Effect :=
  match s.ws with
  | none => (s, [])
  | some w =>
    let closeEff : List Effect :=
      match w.readyState with
      | .CONNECTING => [.terminateWs]
      | .OPEN => [.closeWs]
      | _ => []
    let drain : List Effect :=
      s.pendingRequests.flatMap fun p =>
        [.clearTimer p.2.token, .rejectP p.2.token connectionClosedError]
    ({ s with ws := none, pendingRequests := [] },
      .log "Disconnecting WebSocket" :: closeEff ++ drain)

/-- `connect` (synchronous initiation): no-op when already connected;
otherwise tear down any existing handle, create a fresh WebSocket in the
CONNECTING state and arm its connection-timeout timer
(`REQUEST_TIMEOUT` ms).  The open/error/close continuations are the
separate steps `onWsOpen`, `onWsError`, `onWsClose`. -/
def connect (s : ClientState) : ClientState × List Effect :=
  if isConnected s then (s, [.log "Already connected to Unity WebSocket"])
  else
    let s1e := disconnect s
    ({ s1e.1 with
        ws := some ⟨WsReadyState.CONNECTING, s1e.1.nextToken⟩,
        nextToken := s1e.1.nextToken + 1 },
      s1e.2 ++ [.setTimer s1e.1.nextToken REQUEST_TIMEOUT])

/-- `ws.onopen`: cancel the connection timer and mark the handle OPEN. -/
def onWsOpen (s : ClientState) : ClientState × List Effect :=
  match s.ws with
  | none => (s, [])
  | some w =>
    ({ s with ws := some { w with readyState := WsReadyState.OPEN } },
      [.clearTimer w.connTimer, .log "WebSocket connected"])

/-- `ws.onerror`: cancel the connection timer, log, tear down. -/
def onWsError (s : ClientState) : ClientState × List Effect :=
  match s.ws with
  | none => (s, [])
  | some w =>
    let s1 := { s with ws := some w }
    let de := disconnect s1
    (de.1, .clearTimer w.connTimer :: .log "WebSocket error" :: de.2)

/-- `ws.onclose`: tear down. -/
def onWsClose (s : ClientState) : ClientState × List Effect :=
  let de := disconnect s
  (de.1, .log "WebSocket closed" :: de.2)

/-- `handleMessage`: parse (`none` = `JSON.parse` threw; caught and
logged), then complete the matching pending entry, if any: cancel its
timer, remove it, and resolve with `response.result` or reject with a
TOOL_EXECUTION `McpUnityError` built from `response.error.message`
(`'Unknown error'` when falsy) and `response.error.details`. -/
def handleMessage (s : ClientState) (data : Option UnityResponse) :
    ClientState × List Effect :=
  match data with
  | none => (s, [.log "Error parsing WebSocket message"])
  | some response =>
    match response.id with
    | none => (s, [])
    | some rid =>
      if rid = "" then (s, [])
      else
        match jsMapGet s.pendingRequests rid with
        | none => (s, [])
        | some request =>
          let outcome : Effect :=
            match response.error with
            | some e =>
              .rejectP request.token
                ⟨ErrorType.toolExecution,
                  (if e.message = "" then "Unknown error" else e.message),
                  e.details⟩
            | none => .resolveP request.token response.result
          ({ s with pendingRequests := jsMapDelete s.pendingRequests rid },
            [.clearTimer request.token, outcome])

/-- `reconnect`: tear down, then re-initiate. -/
def reconnect (s : ClientState) : ClientState × List Effect :=
  let de := disconnect s
  let ce := connect de.1
  (ce.1, de.2 ++ ce.2)

/-- `stop`: tear down and log. -/
def stop (s : ClientState) : ClientState × List Effect :=
  let de := disconnect s
  (de.1, de.2 ++ [.log "Unity WebSocket client stopped"])

/-- The request-timeout callback armed by `sendRequest`: if the entry is
still pending, remove it and reject with the TIMEOUT error; in every
case, reconnect. -/
def onRequestTimeout (s : ClientState) (requestId : String) :
    ClientState × List Effect :=
  let firstPart : ClientState × List Effect :=
    match jsMapGet s.pendingRequests requestId with
    | some request =>
      ({ s with pendingRequests := jsMapDelete s.pendingRequests requestId },
        [.log "Request timed out",
          .rejectP request.token ⟨ErrorType.timeout, "Request timed out", none⟩])
    | none => (s, [])
  let re := reconnect firstPart.1
  (re.1, firstPart.2 ++ re.2)

/-- `request.id as string || uuidv4()`: a missing or empty (falsy)
caller id is replaced by the freshly generated uuid. -/
def computeRequestId (callerId : Option String) (freshId : String) : String :=
  match callerId with
  | some i => if i = "" then freshId else i
  | none => freshId

/-- `sendRequest`, from the point after the implicit-connect `await`
(the promise executor plus the id computation).  `freshId` is the
`uuidv4()` value drawn if needed; `sendThrows` is whether `ws.send`
throws synchronously.  The call's promise and timer share the token
allocated here.  Branches, in source order: reject with a CONNECTION
error when not connected; otherwise arm the timer, register the entry,
and write the frame — a synchronous write failure cancels the timer,
removes the entry and rejects with a CONNECTION error. -/
def sendRequest (s : ClientState) (request : UnityRequest)
    (freshId : String) (sendThrows : Bool) : ClientState × List Effect :=
  let requestId := computeRequestId request.id freshId
  let message : UnityRequest := { request with id := some requestId }
  let tok := s.nextToken
  let s0 := { s with nextToken := s.nextToken + 1 }
  if s0.ws.isNone ∨ ¬ isConnected s0 then
    (s0, [.rejectP tok ⟨ErrorType.connection, "Not connected to Unity", none⟩])
  else
    let s1 :=
      { s0 with pendingRequests := jsMapSet s0.pendingRequests requestId ⟨tok⟩ }
    if sendThrows then
      ({ s1 with pendingRequests := jsMapDelete s1.pendingRequests requestId },
        [.setTimer tok REQUEST_TIMEOUT, .clearTimer tok,
          .rejectP tok ⟨ErrorType.connection, "Send failed", none⟩])
    else
      (s1, [.setTimer tok REQUEST_TIMEOUT, .sendFrame message,
        .log "Request sent"])

/-- Every state-mutating entry point of the client, for stating
whole-machine invariants: connection initiation, each transport event
callback, inbound message handling, teardown, stop, reconnect, the
request-timeout callback, and the send path. -/
inductive Op where
  | opConnect
  | opWsOpen
  | opWsError
  | opWsClose
  | opHandleMessage (data : Option UnityResponse)
  | opDisconnect
  | opStop
  | opReconnect
  | opTimeout (requestId : String)
  | opSendRequest (request : UnityRequest) (freshId : String) (sendThrows : Bool)

def applyOp : Op → ClientState → ClientState × List Effect
  | .opConnect, s => connect s
  | .opWsOpen, s => onWsOpen s
  | .opWsError, s => onWsError s
  | .opWsClose, s => onWsClose s
  | .opHandleMessage data, s => handleMessage s data
  | .opDisconnect, s => disconnect s
  | .opStop, s => stop s
  | .opReconnect, s => reconnect s
  | .opTimeout requestId, s => onRequestTimeout s requestId
  | .opSendRequest request freshId sendThrows, s =>
    sendRequest s request freshId sendThrows

/-- The handle/table invariant: a null transport handle means an empty
pending-request table. -/
def HandleTableInv (s : ClientState) : Prop :=
  s.ws = none → s.pendingRequests = []

/-- A response frame matches a pending entry when it parsed, carries a
truthy id, and that id is in the table. -/
def matchesPending (s : ClientState) (data : Option UnityResponse) : Bool :=
  match data with
  | none => false
  | some response =>
    match response.id with
    | none => false
    | some rid => rid != "" && jsMapHas s.pendingRequests rid

/-- Effects that complete a caller-visible promise. -/
def isCompletion : Effect → Bool
  | .resolveP _ _ => true
  | .rejectP _ _ => true
  | _ => false

/-- Transport write effects. -/
def isSendFrame : Effect → Bool
  | .sendFrame _ => true
  | _ => false

/- ### Concrete example inputs used by witnesses and counterexamples -/

/-- Override set to an unparseable string while the POSIX store holds
a parseable value. -/
def envOverrideUnparseable : ResolveEnv :=
  ⟨some "port", .otherUnix, none, .ok "", .ok "", .ok "7777"⟩

/-- Override set to `"9999"` with a conflicting platform-store value. -/
def envOverride9999 : ResolveEnv :=
  ⟨some "9999", .darwin, none, .ok "4242", .ok "", .ok ""⟩

/-- No override, and every platform probe yields nothing. -/
def envNothingSet : ResolveEnv :=
  ⟨none, .darwin, none, .ok "", .ok "", .ok ""⟩

/-- No override, POSIX platform, and the `printenv` probe throws. -/
def envProbeThrows : ResolveEnv :=
  ⟨none, .otherUnix, none, .ok "", .ok "",
    .error "Command failed: printenv UNITY_PORT"⟩

/-- Windows, no override, `HKCU\Environment` holding `UNITY_PORT=9999`. -/
def envWin32Registry9999 : ResolveEnv :=
  ⟨none, .win32, some "9999", .ok "", .ok "", .ok ""⟩

/-- An open connection with one pending request under id `"Y"`. -/
def stOpenY : ClientState := ⟨some ⟨.OPEN, 0⟩, [("Y", ⟨1⟩)], 2⟩

/-- A failure response for `"Y"` whose error type tag is `"A"`. -/
def respTypeA : UnityResponse := ⟨"2.0", some "Y", none, some ⟨"bad op", "A", none⟩⟩

/-- The same failure response with error type tag `"B"`. -/
def respTypeB : UnityResponse := ⟨"2.0", some "Y", none, some ⟨"bad op", "B", none⟩⟩

/-- A request reusing the already-pending id `"Y"`. -/
def reqDupY : UnityRequest := ⟨some "Y", "m", Json.null⟩

/-- A request with the empty string as caller-supplied id. -/
def reqEmptyId : UnityRequest := ⟨some "", "ping", Json.null⟩

/-- A request with a fresh caller-supplied id `"Z"`. -/
def reqFreshZ : UnityRequest := ⟨some "Z", "m", Json.null⟩

/-- A well-formed response whose id `"Z"` matches no pending request. -/
def respUnmatched : UnityResponse := ⟨"2.0", some "Z", some (Json.str "pong"), none⟩

/-- A failure response for `"Y"` with an empty error message. -/
def respEmptyMsg : UnityResponse := ⟨"2.0", some "Y", none, some ⟨"", "T", none⟩⟩

/-- A success response matching surviving entry `"Y"`. -/
def respPongY : UnityResponse := ⟨"2.0", some "Y", some (Json.str "pong"), none⟩

/- ### Helper lemmas about the map operations and the client steps -/

theorem jsMapDelete_of_not_has (m : List (String × PendingRequest))
    (k : String) (h : jsMapHas m k = false) : jsMapDelete m k = m := by
  induction m with
  | nil => rfl
  | cons p t ih =>
    simp only [jsMapHas, List.any_cons, Bool.or_eq_false_iff] at h
    simp only [jsMapDelete, List.filter_cons, h.1, Bool.not_false, if_true]
    exact congrArg (p :: ·) (ih h.2)

theorem jsMapHas_delete_self (m : List (String × PendingRequest))
    (k : String) : jsMapHas (jsMapDelete m k) k = false := by
  induction m with
  | nil => rfl
  | cons p t ih =>
    by_cases hpk : p.1 == k
    · simp only [jsMapDelete, List.filter_cons, hpk, Bool.not_true, if_neg]
      exact ih
    · simp only [Bool.not_eq_true] at hpk
      simp only [jsMapDelete, List.filter_cons, hpk, Bool.not_false, if_pos,
        jsMapHas, List.any_cons, Bool.or_eq_false_iff]
      exact ⟨trivial, ih⟩

theorem jsMapGet_eq_none_of_not_has (m : List (String × PendingRequest))
    (k : String) (h : jsMapHas m k = false) : jsMapGet m k = none := by
  induction m with
  | nil => rfl
  | cons p t ih =>
    simp only [jsMapHas, List.any_cons, Bool.or_eq_false_iff] at h
    simp only [jsMapGet, List.find?_cons, h.1]
    exact ih h.2

theorem jsMapDelete_set_of_not_has (m : List (String × PendingRequest))
    (k : String) (v : PendingRequest) (h : jsMapHas m k = false) :
    jsMapDelete (jsMapSet m k v) k = m := by
  have hset : jsMapSet m k v = m ++ [(k, v)] := by
    simp [jsMapSet, h]
  rw [hset]
  simp only [jsMapDelete, List.filter_append]
  have h1 : List.filter (fun p => !(p.1 == k)) [(k, v)] = [] := by simp
  rw [h1, List.append_nil]
  exact jsMapDelete_of_not_has m k h

theorem jsMapGet_append_single (m : List (String × PendingRequest))
    (k : String) (v : PendingRequest) (h : jsMapHas m k = false) :
    jsMapGet (m ++ [(k, v)]) k = some v := by
  induction m with
  | nil => simp [jsMapGet]
  | cons p t ih =>
    simp only [jsMapHas, List.any_cons, Bool.or_eq_false_iff] at h
    simp only [List.cons_append, jsMapGet, List.find?_cons, h.1]
    exact ih h.2

theorem jsMapGet_set_of_not_has (m : List (String × PendingRequest))
    (k : String) (v : PendingRequest) (h : jsMapHas m k = false) :
    jsMapGet (jsMapSet m k v) k = some v := by
  have hset : jsMapSet m k v = m ++ [(k, v)] := by
    simp [jsMapSet, h]
  rw [hset]
  exact jsMapGet_append_single m k v h

theorem jsMapGet_of_has_false (m : List (String × PendingRequest))
    (k : String) (h : jsMapHas m k = false) : jsMapGet m k = none :=
  jsMapGet_eq_none_of_not_has m k h

theorem disconnect_fst_of_none (s : ClientState) (h : s.ws = none) :
    (disconnect s).1 = s := by
  simp [disconnect, h]

theorem disconnect_fst_of_some (s : ClientState) (w : WsHandle)
    (h : s.ws = some w) :
    (disconnect s).1 = { s with ws := none, pendingRequests := [] } := by
  simp [disconnect, h]

theorem disconnect_ws_none (s : ClientState) : (disconnect s).1.ws = none := by
  cases hw : s.ws with
  | none => rw [disconnect_fst_of_none s hw]; exact hw
  | some w => rw [disconnect_fst_of_some s w hw]

theorem disconnect_nextToken (s : ClientState) :
    (disconnect s).1.nextToken = s.nextToken := by
  cases hw : s.ws with
  | none => rw [disconnect_fst_of_none s hw]
  | some w => rw [disconnect_fst_of_some s w hw]

theorem connect_fst_of_ws_none (s : ClientState) (h : s.ws = none) :
    (connect s).1 =
      { s with ws := some ⟨WsReadyState.CONNECTING, s.nextToken⟩,
               nextToken := s.nextToken + 1 } := by
  have hc : isConnected s = false := by simp [isConnected, h]
  simp [connect, hc, disconnect_fst_of_none s h]

theorem reconnect_fst (s : ClientState) :
    (reconnect s).1 =
      { (disconnect s).1 with
          ws := some ⟨WsReadyState.CONNECTING, s.nextToken⟩,
          nextToken := s.nextToken + 1 } := by
  simp only [reconnect]
  rw [connect_fst_of_ws_none (disconnect s).1 (disconnect_ws_none s),
    disconnect_nextToken]

theorem reconnect_ws (s : ClientState) :
    (reconnect s).1.ws = some ⟨WsReadyState.CONNECTING, s.nextToken⟩ := by
  rw [reconnect_fst]

theorem reconnect_pending (s : ClientState) :
    (reconnect s).1.pendingRequests = (disconnect s).1.pendingRequests := by
  rw [reconnect_fst]

/- ### Claim theorems: endpoint resolver -/

/-- C2 (counterexample): the claim "if the override variable is present
and parseable as an integer it is used; otherwise the platform-specific
persisted value is used when it yields a value" fails on the code.  With
`UNITY_PORT="port"` (present but not parseable) and the POSIX store
holding the parseable value `"7777"`, `determinePort` returns `NaN`
(modelled `none`) instead of falling through to 7777: presence alone,
not parseability, decides the first step. -/
theorem mcp_c2_counterexample :
    envOverrideUnparseable.unityPortEnv = some "port" ∧
    jsParseInt "port" = none ∧
    getPlatformSpecificPort envOverrideUnparseable = Except.ok "7777" ∧
    jsParseInt "7777" = some 7777 ∧
    determinePort envOverrideUnparseable = none ∧
    determinePort envOverrideUnparseable ≠ some 7777 := by
  decide

/-- C2 (amended): `determinePort` follows the priority order override >
platform store > default, where the override is used whenever it is
present and nonempty — its `parseInt` image is returned even when that
is `NaN`; otherwise a nonempty platform value is used via `parseInt`;
otherwise the result is `DEFAULT_PORT` (8090).  In particular, with the
override `"9999"` the result is 9999 regardless of platform store
contents, and with no override and no platform value the result is
8090. -/
theorem mcp_c2_override_priority_amended :
    (∀ env p, env.unityPortEnv = some p → p ≠ "" →
      determinePort env = jsParseInt p) ∧
    (∀ env, env.unityPortEnv = some "9999" → determinePort env = some 9999) ∧
    (∀ env v, (env.unityPortEnv = none ∨ env.unityPortEnv = some "") →
      getPlatformSpecificPort env = Except.ok v → v ≠ "" →
      determinePort env = jsParseInt v) ∧
    (∀ env, (env.unityPortEnv = none ∨ env.unityPortEnv = some "") →
      getPlatformSpecificPort env = Except.ok "" →
      determinePort env = some DEFAULT_PORT) := by
  refine ⟨?_, ?_, ?_, ?_⟩
  · intro env p hp hne
    simp [determinePort, hp, hne]
  · intro env h9
    rw [show determinePort env = jsParseInt "9999" from by
      simp [determinePort, h9]]
    decide
  · intro env v hov hok hv
    rcases hov with h | h <;>
      simp [determinePort, h, portFromRegistryOrDefault, hok, hv]
  · intro env hov hok
    rcases hov with h | h <;>
      simp [determinePort, h, portFromRegistryOrDefault, hok]

theorem mcp_c2_override_priority_witness :
    determinePort envOverride9999 = some 9999 ∧
    determinePort envNothingSet = some DEFAULT_PORT :=
  ⟨mcp_c2_override_priority_amended.2.1 envOverride9999 rfl,
   mcp_c2_override_priority_amended.2.2.2 envNothingSet (Or.inl rfl) (by decide)⟩

/-- C7: whenever probing the platform store raises an error (the probe
returns `Except.error`), `determinePort` catches it, treats the step as
not-found, and still returns a port — the default 8090 when no override
yielded a value.  Totality of `determinePort : ResolveEnv → Option Int`
is the no-propagation half; this theorem is the still-returns-default
half. -/
theorem mcp_c7_probe_error_never_propagates (env : ResolveEnv) (msg : String)
    (herr : getPlatformSpecificPort env = Except.error msg)
    (hov : env.unityPortEnv = none ∨ env.unityPortEnv = some "") :
    determinePort env = some DEFAULT_PORT := by
  rcases hov with h | h <;>
    simp [determinePort, h, portFromRegistryOrDefault, herr]

theorem mcp_c7_witness :
    getPlatformSpecificPort envProbeThrows =
      Except.error "Command failed: printenv UNITY_PORT" ∧
    determinePort envProbeThrows = some DEFAULT_PORT :=
  ⟨rfl,
   mcp_c7_probe_error_never_propagates envProbeThrows
     "Command failed: printenv UNITY_PORT" rfl (Or.inl rfl)⟩

/-- C8 (code bug): on win32 with no override and `HKCU\Environment`
holding `UNITY_PORT=9999`, resolution is claimed to return 9999, but
`getUnityPortFromWindowsRegistry` reads the registry through `winreg`'s
asynchronous callback and synchronously returns its `result` variable
before the callback has run — always `''` — so `determinePort` falls
through to the default 8090 and the registry value is never used. -/
theorem mcp_c8_windows_registry_value_unused :
    envWin32Registry9999.platform = Platform.win32 ∧
    envWin32Registry9999.unityPortEnv = none ∧
    envWin32Registry9999.winRegistryUnityPort = some "9999" ∧
    getUnityPortFromWindowsRegistry envWin32Registry9999 = "" ∧
    determinePort envWin32Registry9999 = some DEFAULT_PORT ∧
    determinePort envWin32Registry9999 ≠ some 9999 := by
  decide

/- ### Claim theorems: inbound frame handling -/

/-- C5: an inbound frame that fails to parse, or whose id is absent,
falsy, or matches no pending entry, produces no observable effect:
`handleMessage` returns (no exception by totality), the state — pending
table and connection — is unchanged, no promise is completed, and no
transport close is issued. -/
theorem mcp_c5_unmatched_frame_no_effect (s : ClientState)
    (data : Option UnityResponse) (h : matchesPending s data = false) :
    (handleMessage s data).1 = s ∧
    ∀ e ∈ (handleMessage s data).2,
      isCompletion e = false ∧ e ≠ Effect.closeWs ∧ e ≠ Effect.terminateWs := by
  cases data with
  | none =>
    refine ⟨rfl, ?_⟩
    intro e he
    simp only [handleMessage, List.mem_singleton] at he
    subst he
    exact ⟨rfl, by decide, by decide⟩
  | some response =>
    cases hid : response.id with
    | none => simp [handleMessage, hid]
    | some rid =>
      by_cases hrid : rid = ""
      · subst hrid
        simp [handleMessage, hid]
      · have hhas : jsMapHas s.pendingRequests rid = false := by
          simp only [matchesPending, hid, Bool.and_eq_false_iff, bne_eq_false_iff_eq] at h
          rcases h with h | h
          · exact absurd h hrid
          · exact h
        have hget := jsMapGet_of_has_false s.pendingRequests rid hhas
        simp [handleMessage, hid, hrid, hget]

theorem mcp_c5_witness :
    matchesPending stOpenY (some respUnmatched) = false ∧
    (handleMessage stOpenY (some respUnmatched)).1 = stOpenY :=
  ⟨by decide,
   (mcp_c5_unmatched_frame_no_effect stOpenY (some respUnmatched) (by decide)).1⟩

/-- C3 (counterexample): the rejection built for a failure frame does
not carry the frame's error `type`: two frames differing only in
`error.type` produce identical behaviour (the rejection always carries
the fixed TOOL_EXECUTION tag), and a frame with an empty error message
is rejected with the substitute message `"Unknown error"`, not the
frame's message. -/
theorem mcp_c3_counterexample :
    respTypeA.error ≠ respTypeB.error ∧
    handleMessage stOpenY (some respTypeA) = handleMessage stOpenY (some respTypeB) ∧
    (handleMessage stOpenY (some respEmptyMsg)).2 =
      [Effect.clearTimer 1,
        Effect.rejectP 1 ⟨ErrorType.toolExecution, "Unknown error", none⟩] := by
  refine ⟨by decide, by decide, by decide⟩

/-- C3 (amended): for every inbound ResponseFrame whose id matches a
pending request, the request's timer is cancelled, its entry is removed,
the connection is untouched, and the call resolves with exactly the
frame's `result` payload when the frame has no error, or rejects with a
`McpUnityError` of the fixed TOOL_EXECUTION type carrying the frame's
error message (replaced by `"Unknown error"` when empty) and the frame's
error details — the frame's `error.type` field is not propagated. -/
theorem mcp_c3_matched_response_amended (s : ClientState)
    (response : UnityResponse) (rid : String) (request : PendingRequest)
    (hid : response.id = some rid) (hne : rid ≠ "")
    (hget : jsMapGet s.pendingRequests rid = some request) :
    Effect.clearTimer request.token ∈ (handleMessage s (some response)).2 ∧
    jsMapHas (handleMessage s (some response)).1.pendingRequests rid = false ∧
    (handleMessage s (some response)).1.ws = s.ws ∧
    (response.error = none →
      Effect.resolveP request.token response.result ∈
        (handleMessage s (some response)).2) ∧
    (∀ e, response.error = some e →
      Effect.rejectP request.token
        ⟨ErrorType.toolExecution,
          (if e.message = "" then "Unknown error" else e.message),
          e.details⟩ ∈ (handleMessage s (some response)).2) := by
  have hred : handleMessage s (some response) =
      ({ s with pendingRequests := jsMapDelete s.pendingRequests rid },
        [Effect.clearTimer request.token,
          match response.error with
          | some e =>
            Effect.rejectP request.token
              ⟨ErrorType.toolExecution,
                (if e.message = "" then "Unknown error" else e.message),
                e.details⟩
          | none => Effect.resolveP request.token response.result]) := by
    simp [handleMessage, hid, hne, hget]
  rw [hred]
  refine ⟨by simp, jsMapHas_delete_self s.pendingRequests rid, rfl, ?_, ?_⟩
  · intro herr
    simp [herr]
  · intro e herr
    simp [herr]

theorem mcp_c3_witness :
    jsMapGet stOpenY.pendingRequests "Y" = some ⟨1⟩ ∧
    Effect.resolveP 1 (some (Json.str "pong")) ∈
      (handleMessage stOpenY (some respPongY)).2 :=
  ⟨by decide,
   (mcp_c3_matched_response_amended stOpenY respPongY "Y" ⟨1⟩ rfl (by decide)
      (by decide)).2.2.2.1 rfl⟩

/- ### Claim theorems: send path -/

theorem isNone_false_of_connected (s : ClientState)
    (h : isConnected s = true) : s.ws.isNone = false := by
  cases hw : s.ws with
  | none => simp [isConnected, hw] at h
  | some w => simp [hw]

theorem sendRequest_connected_send_eq (s : ClientState)
    (request : UnityRequest) (freshId : String)
    (hconn : isConnected s = true) :
    sendRequest s request freshId false =
      ({ s with
          pendingRequests :=
            jsMapSet s.pendingRequests (computeRequestId request.id freshId)
              ⟨s.nextToken⟩,
          nextToken := s.nextToken + 1 },
        [Effect.setTimer s.nextToken REQUEST_TIMEOUT,
          Effect.sendFrame
            { request with id := some (computeRequestId request.id freshId) },
          Effect.log "Request sent"]) := by
  have hws := isNone_false_of_connected s hconn
  simp [sendRequest, hws, hconn, isConnected]
  cases hw : s.ws with
  | none => simp [hw] at hws
  | some w =>
    simp [isConnected, hw] at hconn
    simp [hw, hconn]

theorem sendRequest_connected_throw_eq (s : ClientState)
    (request : UnityRequest) (freshId : String)
    (hconn : isConnected s = true) :
    sendRequest s request freshId true =
      ({ s with
          pendingRequests :=
            jsMapDelete
              (jsMapSet s.pendingRequests (computeRequestId request.id freshId)
                ⟨s.nextToken⟩)
              (computeRequestId request.id freshId),
          nextToken := s.nextToken + 1 },
        [Effect.setTimer s.nextToken REQUEST_TIMEOUT,
          Effect.clearTimer s.nextToken,
          Effect.rejectP s.nextToken
            ⟨ErrorType.connection, "Send failed", none⟩]) := by
  have hws := isNone_false_of_connected s hconn
  simp [sendRequest, hws, hconn, isConnected]
  cases hw : s.ws with
  | none => simp [hw] at hws
  | some w =>
    simp [isConnected, hw] at hconn
    simp [hw, hconn]

/-- C10: a `sendRequest` call whose caller-supplied id is the empty
string does not use `""` as correlation identifier: the frame is
transmitted and the entry registered under the freshly generated uuid
instead, and `handleMessage` never completes any pending request for a
response whose id is the empty string. -/
theorem mcp_c10_empty_id_replaced (s : ClientState) (request : UnityRequest)
    (freshId : String) (hid : request.id = some "") (hfresh : freshId ≠ "")
    (hconn : isConnected s = true)
    (hnew : jsMapHas s.pendingRequests freshId = false) :
    Effect.sendFrame { request with id := some freshId } ∈
      (sendRequest s request freshId false).2 ∧
    jsMapGet (sendRequest s request freshId false).1.pendingRequests freshId =
      some ⟨s.nextToken⟩ ∧
    (∀ f, Effect.sendFrame f ∈ (sendRequest s request freshId false).2 →
      f.id ≠ some "") ∧
    (∀ s2 r, r.id = some "" → handleMessage s2 (some r) = (s2, [])) := by
  have hrid : computeRequestId request.id freshId = freshId := by
    simp [computeRequestId, hid]
  have hred := sendRequest_connected_send_eq s request freshId hconn
  rw [hrid] at hred
  rw [hred]
  refine ⟨by simp, jsMapGet_set_of_not_has s.pendingRequests freshId ⟨s.nextToken⟩ hnew,
    ?_, ?_⟩
  · intro f hf
    simp only [List.mem_cons, List.not_mem_nil, or_false] at hf
    rcases hf with hf | hf | hf
    · simp at hf
    · injection hf with hmsg
      subst hmsg
      simpa using hfresh
    · simp at hf
  · intro s2 r hr
    simp [handleMessage, hr]

theorem mcp_c10_witness :
    reqEmptyId.id = some "" ∧
    jsMapGet (sendRequest stOpenY reqEmptyId "fresh" false).1.pendingRequests
      "fresh" = some ⟨2⟩ :=
  ⟨rfl,
   (mcp_c10_empty_id_replaced stOpenY reqEmptyId "fresh" rfl (by decide)
      (by decide) (by decide)).2.1⟩

/-- C6 (counterexample): the claim that a synchronous write failure
leaves the pending-request table "as it was before the call" fails when
the caller supplies an id that is already pending: registration
overwrites the pre-existing entry and the cleanup deletes it, so the
table loses that entry.  Concretely, with entry `"Y"` pending and a
throwing send of a request reusing id `"Y"`, the table ends empty. -/
theorem mcp_c6_counterexample :
    isConnected stOpenY = true ∧
    jsMapHas stOpenY.pendingRequests "Y" = true ∧
    (sendRequest stOpenY reqDupY "fresh" true).1.pendingRequests = [] ∧
    (sendRequest stOpenY reqDupY "fresh" true).1.pendingRequests ≠
      stOpenY.pendingRequests := by
  refine ⟨by decide, by decide, by decide, by decide⟩

/-- C6 (amended): when the transport write throws synchronously, the
request's timer is cancelled, its entry is removed, the call rejects
with a CONNECTION error, and no transmission (hence no retry) occurs;
when the correlation id was not already pending — in particular for
every generated id — the table is left exactly as it was before the
call (a colliding pre-existing entry is overwritten by registration and
removed by the cleanup). -/
theorem mcp_c6_send_throw_cleanup (s : ClientState) (request : UnityRequest)
    (freshId : String) (hconn : isConnected s = true)
    (hnot : jsMapHas s.pendingRequests
      (computeRequestId request.id freshId) = false) :
    (sendRequest s request freshId true).1.pendingRequests =
      s.pendingRequests ∧
    Effect.clearTimer s.nextToken ∈ (sendRequest s request freshId true).2 ∧
    Effect.rejectP s.nextToken ⟨ErrorType.connection, "Send failed", none⟩ ∈
      (sendRequest s request freshId true).2 ∧
    ∀ e ∈ (sendRequest s request freshId true).2, isSendFrame e = false := by
  rw [sendRequest_connected_throw_eq s request freshId hconn]
  refine ⟨jsMapDelete_set_of_not_has s.pendingRequests
      (computeRequestId request.id freshId) ⟨s.nextToken⟩ hnot,
    by simp, by simp, ?_⟩
  intro e he
  simp only [List.mem_cons, List.not_mem_nil, or_false] at he
  rcases he with he | he | he <;> subst he <;> rfl

theorem mcp_c6_witness :
    jsMapHas stOpenY.pendingRequests (computeRequestId reqFreshZ.id "fresh") =
      false ∧
    (sendRequest stOpenY reqFreshZ "fresh" true).1.pendingRequests =
      stOpenY.pendingRequests :=
  ⟨by decide,
   (mcp_c6_send_throw_cleanup stOpenY reqFreshZ "fresh" (by decide)
      (by decide)).1⟩

/- ### Claim theorems: timeout and teardown -/

theorem closeWs_mem_reconnect (s : ClientState) (ct : Nat)
    (h : s.ws = some ⟨WsReadyState.OPEN, ct⟩) :
    Effect.closeWs ∈ (reconnect s).2 := by
  simp [reconnect, disconnect, h]

theorem onRequestTimeout_eq_of_get (s : ClientState) (requestId : String)
    (request : PendingRequest)
    (hget : jsMapGet s.pendingRequests requestId = some request) :
    onRequestTimeout s requestId =
      ((reconnect
          { s with
              pendingRequests :=
                jsMapDelete s.pendingRequests requestId }).1,
        [Effect.log "Request timed out",
          Effect.rejectP request.token
            ⟨ErrorType.timeout, "Request timed out", none⟩] ++
          (reconnect
            { s with
                pendingRequests :=
                  jsMapDelete s.pendingRequests requestId }).2) := by
  simp [onRequestTimeout, hget]

/-- C1: when the request-timeout callback fires with the entry still
pending (no matching response arrived within the `REQUEST_TIMEOUT` =
10000 ms window), the entry is removed from the table, the call is
rejected with the TIMEOUT error, and the client initiates a reconnect
cycle: the previous open handle is closed (teardown) and a fresh handle
in the CONNECTING state is installed (reattempt). -/
theorem mcp_c1_timeout_rejects_and_reconnects (s : ClientState)
    (requestId : String) (request : PendingRequest)
    (hget : jsMapGet s.pendingRequests requestId = some request) :
    REQUEST_TIMEOUT = 10000 ∧
    Effect.rejectP request.token ⟨ErrorType.timeout, "Request timed out", none⟩ ∈
      (onRequestTimeout s requestId).2 ∧
    jsMapHas (onRequestTimeout s requestId).1.pendingRequests requestId =
      false ∧
    (onRequestTimeout s requestId).1.ws =
      some ⟨WsReadyState.CONNECTING, s.nextToken⟩ ∧
    (∀ ct, s.ws = some ⟨WsReadyState.OPEN, ct⟩ →
      Effect.closeWs ∈ (onRequestTimeout s requestId).2) := by
  rw [onRequestTimeout_eq_of_get s requestId request hget]
  refine ⟨rfl, by simp, ?_, ?_, ?_⟩
  · rw [reconnect_pending]
    cases hw : s.ws with
    | none =>
      rw [disconnect_fst_of_none _ rfl]
      exact jsMapHas_delete_self s.pendingRequests requestId
    | some w =>
      rw [disconnect_fst_of_some _ w rfl]
      rfl
  · exact reconnect_ws _
  · intro ct hw
    refine List.mem_append_right _ ?_
    exact closeWs_mem_reconnect _ ct hw

theorem mcp_c1_witness :
    jsMapGet stOpenY.pendingRequests "Y" = some ⟨1⟩ ∧
    Effect.rejectP 1 ⟨ErrorType.timeout, "Request timed out", none⟩ ∈
      (onRequestTimeout stOpenY "Y").2 ∧
    (onRequestTimeout stOpenY "Y").1.ws =
      some ⟨WsReadyState.CONNECTING, 2⟩ :=
  ⟨by decide,
   (mcp_c1_timeout_rejects_and_reconnects stOpenY "Y" ⟨1⟩ (by decide)).2.1,
   (mcp_c1_timeout_rejects_and_reconnects stOpenY "Y" ⟨1⟩ (by decide)).2.2.2.1⟩

theorem mem_drain_effects (m : List (String × PendingRequest))
    (p : String × PendingRequest) (hmem : p ∈ m) :
    Effect.clearTimer p.2.token ∈
      (m.flatMap fun q =>
        [Effect.clearTimer q.2.token,
          Effect.rejectP q.2.token connectionClosedError]) ∧
    Effect.rejectP p.2.token connectionClosedError ∈
      (m.flatMap fun q =>
        [Effect.clearTimer q.2.token,
          Effect.rejectP q.2.token connectionClosedError]) :=
  ⟨List.mem_flatMap.2 ⟨p, hmem, by simp⟩,
   List.mem_flatMap.2 ⟨p, hmem, by simp⟩⟩

theorem mem_stop_effects_of_pending (s : ClientState) (w : WsHandle)
    (hw : s.ws = some w) (p : String × PendingRequest)
    (hmem : p ∈ s.pendingRequests) :
    Effect.clearTimer p.2.token ∈ (stop s).2 ∧
    Effect.rejectP p.2.token connectionClosedError ∈ (stop s).2 := by
  have h2 : (stop s).2 =
      (Effect.log "Disconnecting WebSocket" ::
        ((match w.readyState with
          | WsReadyState.CONNECTING => [Effect.terminateWs]
          | WsReadyState.OPEN => [Effect.closeWs]
          | _ => []) ++
          s.pendingRequests.flatMap fun q =>
            [Effect.clearTimer q.2.token,
              Effect.rejectP q.2.token connectionClosedError])) ++
      [Effect.log "Unity WebSocket client stopped"] := by
    cases hr : w.readyState <;> simp [stop, disconnect, hw, hr]
  rw [h2]
  have hd := mem_drain_effects s.pendingRequests p hmem
  exact ⟨List.mem_append_left _ (List.mem_cons_of_mem _
      (List.mem_append_right _ hd.1)),
    List.mem_append_left _ (List.mem_cons_of_mem _
      (List.mem_append_right _ hd.2))⟩

/-- C4: `stop` rejects every outstanding pending request with the
connection-closed CONNECTION error and cancels its timer; afterwards the
pending table is empty and `isConnected` is false; and `stop` is
idempotent — a second call leaves the state unchanged and emits nothing
but its log line.  The hypothesis is the handle/table invariant
(maintained by every operation, see the C9 theorem): a null handle means
an empty table, which is what makes the drain exhaustive. -/
theorem mcp_c4_stop_idempotent_drains (s : ClientState)
    (hInv : HandleTableInv s) :
    (stop s).1.pendingRequests = [] ∧
    isConnected (stop s).1 = false ∧
    (stop (stop s).1).1 = (stop s).1 ∧
    (stop (stop s).1).2 = [Effect.log "Unity WebSocket client stopped"] ∧
    ∀ p ∈ s.pendingRequests,
      Effect.clearTimer p.2.token ∈ (stop s).2 ∧
      Effect.rejectP p.2.token connectionClosedError ∈ (stop s).2 := by
  cases hw : s.ws with
  | none =>
    have hp : s.pendingRequests = [] := hInv hw
    have h1 : (stop s).1 = s := by
      simp [stop, disconnect_fst_of_none s hw]
    refine ⟨by rw [h1]; exact hp, by rw [h1]; simp [isConnected, hw], ?_, ?_, ?_⟩
    · rw [h1]; exact h1
    · rw [h1]; simp [stop, disconnect, hw]
    · intro p hmem
      rw [hp] at hmem
      cases hmem
  | some w =>
    have h1 : (stop s).1 = { s with ws := none, pendingRequests := [] } := by
      simp [stop, disconnect_fst_of_some s w hw]
    refine ⟨by rw [h1], by rw [h1]; rfl, ?_, ?_, ?_⟩
    · rw [h1]; simp [stop, disconnect]
    · rw [h1]; simp [stop, disconnect]
    · exact mem_stop_effects_of_pending s w hw

theorem mcp_c4_witness :
    HandleTableInv stOpenY ∧
    (stop stOpenY).1.pendingRequests = [] ∧
    Effect.rejectP 1 connectionClosedError ∈ (stop stOpenY).2 :=
  ⟨fun h => absurd h (by decide),
   (mcp_c4_stop_idempotent_drains stOpenY (fun h => absurd h (by decide))).1,
   ((mcp_c4_stop_idempotent_drains stOpenY (fun h => absurd h (by decide))).2.2.2.2
      ("Y", ⟨1⟩) (by decide)).2⟩

/- ### Claim theorems: handle/table invariant -/

theorem inv_of_ws_some (s : ClientState) (w : WsHandle)
    (h : s.ws = some w) : HandleTableInv s := by
  intro hnone
  rw [h] at hnone
  cases hnone

theorem disconnect_inv (s : ClientState) (h : HandleTableInv s) :
    HandleTableInv (disconnect s).1 := by
  cases hw : s.ws with
  | none =>
    rw [disconnect_fst_of_none s hw]
    exact h
  | some w =>
    rw [disconnect_fst_of_some s w hw]
    exact fun _ => rfl

theorem connect_inv (s : ClientState) (h : HandleTableInv s) :
    HandleTableInv (connect s).1 := by
  by_cases hc : isConnected s = true
  · have he : (connect s).1 = s := by
      simp [connect, hc]
    rw [he]
    exact h
  · have he : (connect s).1.ws =
        some ⟨WsReadyState.CONNECTING, (disconnect s).1.nextToken⟩ := by
      simp only [Bool.not_eq_true] at hc
      simp [connect, hc]
    exact inv_of_ws_some _ _ he

theorem reconnect_inv (s : ClientState) : HandleTableInv (reconnect s).1 :=
  inv_of_ws_some _ _ (reconnect_ws s)

/-- C9: the handle/table invariant — a null transport handle implies an
empty pending-request table — is preserved by every operation of the
client: connection initiation, the transport open/error/close
callbacks, inbound message handling, teardown, stop, reconnect, the
request-timeout callback, and the send path. -/
theorem mcp_c9_handle_table_invariant (op : Op) (s : ClientState)
    (h : HandleTableInv s) : HandleTableInv (applyOp op s).1 := by
  cases op with
  | opConnect => exact connect_inv s h
  | opWsOpen =>
    cases hw : s.ws with
    | none =>
      have he : (applyOp Op.opWsOpen s).1 = s := by
        simp [applyOp, onWsOpen, hw]
      rw [he]
      exact h
    | some w =>
      refine inv_of_ws_some _ { w with readyState := WsReadyState.OPEN } ?_
      simp [applyOp, onWsOpen, hw]
  | opWsError =>
    cases hw : s.ws with
    | none =>
      have he : (applyOp Op.opWsError s).1 = s := by
        simp [applyOp, onWsError, hw]
      rw [he]
      exact h
    | some w =>
      intro _
      simp [applyOp, onWsError, hw, disconnect]
  | opWsClose => exact disconnect_inv s h
  | opHandleMessage data =>
    cases data with
    | none => exact h
    | some r =>
      cases hid : r.id with
      | none =>
        have he : (applyOp (Op.opHandleMessage (some r)) s).1 = s := by
          simp [applyOp, handleMessage, hid]
        rw [he]
        exact h
      | some rid =>
        by_cases hrid : rid = ""
        · have he : (applyOp (Op.opHandleMessage (some r)) s).1 = s := by
            simp [applyOp, handleMessage, hid, hrid]
          rw [he]
          exact h
        · cases hg : jsMapGet s.pendingRequests rid with
          | none =>
            have he : (applyOp (Op.opHandleMessage (some r)) s).1 = s := by
              simp [applyOp, handleMessage, hid, hrid, hg]
            rw [he]
            exact h
          | some request =>
            have he : (applyOp (Op.opHandleMessage (some r)) s).1 =
                { s with
                    pendingRequests := jsMapDelete s.pendingRequests rid } := by
              simp [applyOp, handleMessage, hid, hrid, hg]
            rw [he]
            intro hnone
            have hp : s.pendingRequests = [] := h hnone
            show jsMapDelete s.pendingRequests rid = []
            rw [hp]
            rfl
  | opDisconnect => exact disconnect_inv s h
  | opStop => exact disconnect_inv s h
  | opReconnect => exact reconnect_inv s
  | opTimeout requestId =>
    cases hg : jsMapGet s.pendingRequests requestId with
    | none =>
      have he : (applyOp (Op.opTimeout requestId) s).1 = (reconnect s).1 := by
        simp [applyOp, onRequestTimeout, hg]
      rw [he]
      exact reconnect_inv s
    | some request =>
      have he : (applyOp (Op.opTimeout requestId) s).1 =
          (reconnect
            { s with
                pendingRequests :=
                  jsMapDelete s.pendingRequests requestId }).1 := by
        simp [applyOp, onRequestTimeout, hg]
      rw [he]
      exact reconnect_inv _
  | opSendRequest request freshId sendThrows =>
    cases hw : s.ws with
    | none =>
      have he : (applyOp (Op.opSendRequest request freshId sendThrows) s).1 =
          { s with nextToken := s.nextToken + 1 } := by
        simp [applyOp, sendRequest, hw]
      rw [he]
      intro _
      exact h hw
    | some w =>
      refine inv_of_ws_some _ w ?_
      simp only [applyOp, sendRequest]
      split
      · exact hw
      · split
        · exact hw
        · exact hw

theorem mcp_c9_witness :
    HandleTableInv stOpenY ∧
    HandleTableInv (applyOp Op.opStop stOpenY).1 :=
  ⟨fun h => absurd h (by decide),
   mcp_c9_handle_table_invariant Op.opStop stOpenY
     (fun h => absurd h (by decide))⟩
